import Mathlib

/-!
Verification of the downloader engine in `downloader_gui.py`
(class `DownloaderEngine`: `download_file`, `run`, `stop`, and the
browser-engine selection logic), as a shallow embedding in Lean 4.

The browser-automation layer (Playwright) is modelled abstractly: for each
item index and attempt number an `Outcome` says what the browser layer does
during that attempt (raise at one of the four interaction points, report a
missing selector, save a file that then is or is not on disk, or succeed).
The shared stop flag is modelled as a function from read ticks to `Bool`:
the t-th read of `self.should_stop` during a run returns `stopF t`.
-/

namespace Downloader

/-- Severity levels attached by `DownloaderEngine.log` (its `level` argument). -/
inductive Level where
  | info
  | success
  | warning
  | error
  deriving Repr, DecidableEq

/-- One log event, one per `self.log(...)` call in `DownloaderEngine`.
Constructors appear in source order of the corresponding calls. -/
inductive LogEvent where
  | opening (attempt maxRetries : Nat) (url : String)
  | pageLoaded
  | buttonNotFound (selector : String)
  | foundButton
  | downloading (filename : String)
  | complete (filename : String) (size : Nat)
  | fileNotSaved (filename : String)
  | timeoutErr (msg : String)
  | genericErr (msg : String)
  | banner
  | startingDownloads
  | urlsToProcess (n : Nat)
  | downloadFolder (path : String)
  | buttonSelector (sel : String)
  | browserLine (browserType customPath : String)
  | launching
  | usingCustomBrowser (path : String)
  | separator
  | processing (index total : Nat)
  | stoppedByUser
  | retryWait (delay : Nat)
  | betweenWait (delay : Nat)
  | closingBrowser
  | browserError (msg : String)
  | summaryTitle
  | totals (total succ fail : Nat)
  | failedUrlsTitle
  | failedUrl (url : String)
  | doneLine
  deriving Repr, DecidableEq

/-- The `level` string passed to `self.log` for each event
("INFO" when omitted, else the explicit second argument). -/
def LogEvent.level : LogEvent → Level
  | .buttonNotFound _ => .warning
  | .complete _ _ => .success
  | .fileNotSaved _ => .error
  | .timeoutErr _ => .error
  | .genericErr _ => .error
  | .stoppedByUser => .warning
  | .browserError _ => .error
  | _ => .info

/-- An exception raised by the browser layer: Playwright's `TimeoutError`
or any other `Exception`, with its message text. -/
inductive PwErr where
  | timeout (msg : String)
  | other (msg : String)
  deriving Repr, DecidableEq

/-- Behaviour of the browser layer during one attempt of `download_file`.
Each constructor names the point where the attempt stops deviating from
the success path (raise during `page.goto`, raise during locator
count, zero selector matches, raise during `expect_download`/click,
raise during `download.save_as`, saved file missing on disk, success). -/
inductive Outcome where
  | navRaise (e : PwErr)
  | lookupRaise (e : PwErr)
  | noButton
  | clickRaise (e : PwErr)
  | saveRaise (e : PwErr) (filename : String)
  | savedMissing (filename : String)
  | saved (filename : String) (size : Nat)
  deriving Repr, DecidableEq

/-- The settings dictionary read by `DownloaderEngine.run` (lines 111–119). -/
structure Config where
  download_folder : String
  selector : String
  max_retries : Nat
  delay : Nat
  headless : Bool
  page_timeout : Nat
  download_timeout : Nat
  browser_type : String
  custom_browser_path : String
  deriving Repr, DecidableEq

/-- The statistics produced by `run` (variables `successful`, `failed`,
`failed_urls` at lines 125–127, read at lines 190–194 and 209–217). -/
structure RunResult where
  successful : Nat
  failed : Nat
  failed_urls : List String
  deriving Repr, DecidableEq

/-- The error event logged by the two `except` arms of `download_file`
(lines 90–95). -/
def errEvent : PwErr → LogEvent
  | .timeout m => .timeoutErr m
  | .other m => .genericErr m

/-- Body of `download_file` inside its `try` (lines 51–88): the log events
emitted before the attempt finishes, and either the returned boolean or
the exception that escapes the `try` block. -/
def download_file_body (cfg : Config) (o : Outcome) (url : String)
    (attempt : Nat) : List LogEvent × Except PwErr Bool :=
  match o with
  | .navRaise e => ([.opening attempt cfg.max_retries url], .error e)
  | .lookupRaise e =>
      ([.opening attempt cfg.max_retries url, .pageLoaded], .error e)
  | .noButton =>
      ([.opening attempt cfg.max_retries url, .pageLoaded,
        .buttonNotFound cfg.selector], .ok false)
  | .clickRaise e =>
      ([.opening attempt cfg.max_retries url, .pageLoaded, .foundButton],
       .error e)
  | .saveRaise e f =>
      ([.opening attempt cfg.max_retries url, .pageLoaded, .foundButton,
        .downloading f], .error e)
  | .savedMissing f =>
      ([.opening attempt cfg.max_retries url, .pageLoaded, .foundButton,
        .downloading f, .fileNotSaved f], .ok false)
  | .saved f sz =>
      ([.opening attempt cfg.max_retries url, .pageLoaded, .foundButton,
        .downloading f, .complete f sz], .ok true)

/-- `DownloaderEngine.download_file` (lines 44–95): the `try` body wrapped
in the two `except` handlers, which log the error and return `False`. -/
def download_file (cfg : Config) (o : Outcome) (url : String)
    (attempt : Nat) : Bool × List LogEvent :=
  match download_file_body cfg o url attempt with
  | (ls, .ok b) => (b, ls)
  | (ls, .error e) => (false, ls ++ [errEvent e])

/-- Whether the browser-layer outcome makes `download_file` return `True`. -/
def attemptSucceeds : Outcome → Bool
  | .saved _ _ => true
  | _ => false

/-- Does the character list `needle` match at the head of the second list? -/
def matchesAt : List Char → List Char → Bool
  | [], _ => true
  | _ :: _, [] => false
  | a :: as, b :: bs => a == b && matchesAt as bs

/-- Does `needle` occur as a contiguous run anywhere in the list? -/
def hasSub (needle : List Char) : List Char → Bool
  | [] => matchesAt needle []
  | c :: rest => matchesAt needle (c :: rest) || hasSub needle rest

/-- Python's substring test `needle in hay`. -/
def strContains (hay needle : String) : Bool :=
  hasSub needle.data hay.data

/-- Python's `str.lower()`, character by character (the paths involved are
ASCII, where `Char.toLower` and Python's `lower` agree). -/
def lowerStr (s : String) : String :=
  ⟨s.data.map Char.toLower⟩

/-- The final path component of a path (text after the last `/` or `\`);
the "filename" in the spec's sense. -/
def filenameOf (p : String) : String :=
  ⟨(p.data.reverse.takeWhile fun c => !(c == '/' || c == '\\')).reverse⟩

/-- The engine-selection branch of `run` (lines 153–158): Firefox when
`browser_type == "Firefox"` or the custom path is nonempty and its
lowercased text contains `"zen"`; else WebKit when chosen; else Chromium. -/
def selectBrowser (browser_type custom_browser_path : String) : String :=
  if browser_type == "Firefox" ||
      (custom_browser_path != "" &&
        strContains (lowerStr custom_browser_path) "zen") then
    "firefox"
  else if browser_type == "WebKit" then
    "webkit"
  else
    "chromium"

/-- Result of the inner retry loop (lines 173–188) for one item:
the final value of the `success` variable, the next stop-flag read tick,
the ticks at which `download_file` calls started, and the emitted logs. -/
structure RetryOut where
  success : Bool
  t : Nat
  ticks : List Nat
  logs : List LogEvent
  deriving Repr, DecidableEq

/-- The retry loop `for attempt in range(1, max_retries + 2)` (lines
174–188), with `rem` iterations left and current attempt number
`attempt`, starting at stop-flag read tick `t`. Each iteration first
reads `self.should_stop` (one tick) and breaks if it is set; otherwise it
calls `download_file`, breaks on success, and logs the retry notice when
`attempt <= max_retries`. -/
def retry_go (cfg : Config) (br : Nat → Nat → Outcome) (stopF : Nat → Bool)
    (i : Nat) (url : String) : Nat → Nat → Nat → RetryOut
  | 0, _, t => ⟨false, t, [], []⟩
  | rem + 1, attempt, t =>
    if stopF t then ⟨false, t + 1, [], []⟩
    else
      let d := download_file cfg (br i attempt) url attempt
      if d.1 then ⟨true, t + 1, [t], d.2⟩
      else if attempt ≤ cfg.max_retries then
        let r := retry_go cfg br stopF i url rem (attempt + 1) (t + 1)
        ⟨r.success, r.t, t :: r.ticks,
         d.2 ++ (LogEvent.retryWait cfg.delay :: r.logs)⟩
      else
        let r := retry_go cfg br stopF i url rem (attempt + 1) (t + 1)
        ⟨r.success, r.t, t :: r.ticks, d.2 ++ r.logs⟩

/-- The full retry loop for the item at 0-based position `i`. -/
def retry_loop (cfg : Config) (br : Nat → Nat → Outcome)
    (stopF : Nat → Bool) (i : Nat) (url : String) (t : Nat) : RetryOut :=
  retry_go cfg br stopF i url (cfg.max_retries + 1) 1 t

/-- Accumulated state of the outer item loop (lines 163–199). -/
structure LoopOut where
  successful : Nat
  failed : Nat
  failed_urls : List String
  t : Nat
  ticks : List Nat
  logs : List LogEvent
  deriving Repr, DecidableEq

/-- The item loop `for index, url in enumerate(urls, start=1)` (lines
163–199), processing the remaining urls, where `i` is the 0-based position
of the first remaining url (so the displayed index is `i + 1`) and `total`
is `len(urls)`. Each iteration reads the stop flag (break with the
"stopped by user" warning when set), runs the retry loop, tallies the item
as a success or a failure, and, when `index < len(urls)`, reads the stop
flag once more to decide the pacing delay. -/
def run_go (cfg : Config) (br : Nat → Nat → Outcome) (stopF : Nat → Bool)
    (total : Nat) : List String → Nat → Nat → LoopOut
  | [], _, t => ⟨0, 0, [], t, [], []⟩
  | url :: rest, i, t =>
    if stopF t then ⟨0, 0, [], t + 1, [], [LogEvent.stoppedByUser]⟩
    else
      let r := retry_loop cfg br stopF i url (t + 1)
      let wt : List LogEvent × Nat :=
        if i + 1 < total then
          if stopF r.t then ([], r.t + 1)
          else ([LogEvent.betweenWait cfg.delay], r.t + 1)
        else ([], r.t)
      let rest' := run_go cfg br stopF total rest (i + 1) wt.2
      ⟨(if r.success then 1 else 0) + rest'.successful,
       (if r.success then 0 else 1) + rest'.failed,
       (if r.success then [] else [url]) ++ rest'.failed_urls,
       rest'.t,
       r.ticks ++ rest'.ticks,
       (LogEvent.separator :: LogEvent.processing (i + 1) total :: r.logs)
         ++ wt.1 ++ rest'.logs⟩

/-- The banner logged before the `try` block (lines 129–135). -/
def headerLogs (cfg : Config) (n : Nat) : List LogEvent :=
  [.banner, .startingDownloads, .urlsToProcess n,
   .downloadFolder cfg.download_folder, .buttonSelector cfg.selector,
   .browserLine cfg.browser_type cfg.custom_browser_path, .banner]

/-- The summary logged after the `try` block (lines 209–220). -/
def summaryLogs (total succ fail : Nat) (fus : List String) :
    List LogEvent :=
  [.banner, .summaryTitle, .banner, .totals total succ fail] ++
  (if fus.isEmpty then [] else
    LogEvent.failedUrlsTitle :: fus.map LogEvent.failedUrl) ++
  [.banner, .doneLine]

/-- Everything `run` did that the claims talk about: the `RunResult`, the
ticks at which `download_file` calls started, the engine actually
launched (`none` when the launch raised), the ordered log trace, and the
number of stop-flag reads performed. -/
structure RunTrace where
  result : RunResult
  attemptTicks : List Nat
  engine : Option String
  logs : List LogEvent
  reads : Nat
  deriving Repr, DecidableEq

/-- `DownloaderEngine.run` (lines 97–223). `pathExists` models
`os.path.exists(custom_browser_path)` (line 148), which only affects the
launch options and the "Using custom browser" log, not engine selection.
`launch` models whether the browser launch call raises: on `.error m` the
exception reaches the handler at line 205, which logs a browser error and
falls through to the summary with zero processed items. -/
def run (cfg : Config) (br : Nat → Nat → Outcome) (stopF : Nat → Bool)
    (pathExists : Bool) (launch : Except String Unit)
    (urls : List String) : RunTrace :=
  let pre := headerLogs cfg urls.length ++ [LogEvent.launching] ++
    (if cfg.custom_browser_path != "" && pathExists then
      [LogEvent.usingCustomBrowser cfg.custom_browser_path] else [])
  match launch with
  | .error m =>
    { result := ⟨0, 0, []⟩, attemptTicks := [], engine := none,
      logs := pre ++ [LogEvent.browserError m] ++
        summaryLogs urls.length 0 0 [],
      reads := 0 }
  | .ok _ =>
    let lo := run_go cfg br stopF urls.length urls 0 0
    { result := ⟨lo.successful, lo.failed, lo.failed_urls⟩,
      attemptTicks := lo.ticks,
      engine := some (selectBrowser cfg.browser_type
        cfg.custom_browser_path),
      logs := pre ++ lo.logs ++ [LogEvent.closingBrowser] ++
        summaryLogs urls.length lo.successful lo.failed lo.failed_urls,
      reads := lo.t }

/-- `DownloaderEngine.stop` and the writes to `should_stop`: the flag
state machine. State is `(is_running, should_stop)`; `runStart` models
lines 107–108, `stopReq` models line 227, `runEnd` models line 222. -/
inductive EngineEvent where
  | runStart
  | stopReq
  | runEnd
  deriving Repr, DecidableEq

/-- Effect of one event on the `(is_running, should_stop)` pair. -/
def stepFlag : Bool × Bool → EngineEvent → Bool × Bool
  | _, .runStart => (true, false)
  | (r, _), .stopReq => (r, true)
  | (_, s), .runEnd => (false, s)

/-- A stop flag that, once set, stays set (the only writer during a run is
`stop`, which writes `True`). -/
def MonoFlag (stopF : Nat → Bool) : Prop :=
  ∀ t, stopF t = true → stopF (t + 1) = true

/-- Recognizer for the retry notice of line 187. -/
def isRetryWait : LogEvent → Bool
  | .retryWait _ => true
  | _ => false

/-- Recognizer for the "Download button not found" warning of line 65. -/
def isNotFound : LogEvent → Bool
  | .buttonNotFound _ => true
  | _ => false

/-- Recognizer for the click/save-phase events (lines 68–84): anything
logged at or after "Found download button, initiating download...". -/
def isClickSave : LogEvent → Bool
  | .foundButton => true
  | .downloading _ => true
  | .complete _ _ => true
  | .fileNotSaved _ => true
  | _ => false

theorem download_file_fst (cfg : Config) (o : Outcome) (url : String)
    (attempt : Nat) :
    (download_file cfg o url attempt).1 = attemptSucceeds o := by
  cases o <;> rfl

theorem countP_retryWait_download (cfg : Config) (o : Outcome)
    (url : String) (attempt : Nat) :
    (download_file cfg o url attempt).2.countP isRetryWait = 0 := by
  cases o with
  | navRaise e => cases e <;> rfl
  | lookupRaise e => cases e <;> rfl
  | noButton => rfl
  | clickRaise e => cases e <;> rfl
  | saveRaise e f => cases e <;> rfl
  | savedMissing f => rfl
  | saved f sz => rfl

theorem countP_notFound_download (cfg : Config) (o : Outcome)
    (url : String) (attempt : Nat) :
    (download_file cfg o url attempt).2.countP isNotFound =
      (if o = .noButton then 1 else 0) := by
  cases o with
  | navRaise e => cases e <;> rfl
  | lookupRaise e => cases e <;> rfl
  | noButton => rfl
  | clickRaise e => cases e <;> rfl
  | saveRaise e f => cases e <;> rfl
  | savedMissing f => rfl
  | saved f sz => rfl

theorem mono_ge {stopF : Nat → Bool} (h : MonoFlag stopF) {T : Nat}
    (hT : stopF T = true) : ∀ u, T ≤ u → stopF u = true := by
  intro u hu
  induction u, hu using Nat.le_induction with
  | base => exact hT
  | succ u hu ih => exact h u ih

theorem retry_go_ticks_length_le (cfg : Config) (br : Nat → Nat → Outcome)
    (stopF : Nat → Bool) (i : Nat) (url : String) :
    ∀ rem attempt t,
      (retry_go cfg br stopF i url rem attempt t).ticks.length ≤ rem := by
  intro rem
  induction rem with
  | zero => intro attempt t; simp [retry_go]
  | succ n ih =>
    intro attempt t
    by_cases hs : stopF t = true
    · simp [retry_go, hs]
    · simp only [retry_go, hs]
      by_cases hd : (download_file cfg (br i attempt) url attempt).1 = true
      · simp [hd]
      · by_cases ha : attempt ≤ cfg.max_retries <;>
          simp [hd, ha, Nat.succ_le_succ (ih (attempt + 1) (t + 1))]

theorem retry_go_ticks_stop_false (cfg : Config) (br : Nat → Nat → Outcome)
    (stopF : Nat → Bool) (i : Nat) (url : String) :
    ∀ rem attempt t x,
      x ∈ (retry_go cfg br stopF i url rem attempt t).ticks →
      stopF x = false := by
  intro rem
  induction rem with
  | zero => intro attempt t x hx; simp [retry_go] at hx
  | succ n ih =>
    intro attempt t x hx
    by_cases hs : stopF t = true
    · simp [retry_go, hs] at hx
    · simp only [retry_go, hs] at hx
      by_cases hd : (download_file cfg (br i attempt) url attempt).1 = true
      · simp [hd] at hx
        simpa [hx] using hs
      · by_cases ha : attempt ≤ cfg.max_retries <;>
          · simp [hd, ha] at hx
            rcases hx with hx | hx
            · simpa [hx] using hs
            · exact ih (attempt + 1) (t + 1) x hx

theorem retry_go_success_false (cfg : Config) (br : Nat → Nat → Outcome)
    (stopF : Nat → Bool) (i : Nat) (url : String)
    (hf : ∀ a, attemptSucceeds (br i a) = false) :
    ∀ rem attempt t,
      (retry_go cfg br stopF i url rem attempt t).success = false := by
  intro rem
  induction rem with
  | zero => intro attempt t; simp [retry_go]
  | succ n ih =>
    intro attempt t
    by_cases hs : stopF t = true
    · simp [retry_go, hs]
    · simp only [retry_go, hs]
      have hd : (download_file cfg (br i attempt) url attempt).1 = false := by
        rw [download_file_fst]; exact hf attempt
      by_cases ha : attempt ≤ cfg.max_retries <;>
        simp [hd, ha, ih (attempt + 1) (t + 1)]

theorem run_go_nil (cfg : Config) (br : Nat → Nat → Outcome)
    (stopF : Nat → Bool) (total i t : Nat) :
    run_go cfg br stopF total [] i t = ⟨0, 0, [], t, [], []⟩ := rfl

theorem run_go_stopped (cfg : Config) (br : Nat → Nat → Outcome)
    (stopF : Nat → Bool) (total : Nat) (l : List String) (i t : Nat)
    (h : stopF t = true) :
    (run_go cfg br stopF total l i t).successful = 0 ∧
    (run_go cfg br stopF total l i t).failed = 0 ∧
    (run_go cfg br stopF total l i t).failed_urls = [] ∧
    (run_go cfg br stopF total l i t).ticks = [] := by
  cases l <;> simp [run_go, h]

theorem run_go_sum_le (cfg : Config) (br : Nat → Nat → Outcome)
    (stopF : Nat → Bool) (total : Nat) :
    ∀ (l : List String) (i t : Nat),
      (run_go cfg br stopF total l i t).successful +
        (run_go cfg br stopF total l i t).failed ≤ l.length := by
  intro l
  induction l with
  | nil => intro i t; simp [run_go]
  | cons url rest ih =>
    intro i t
    by_cases hs : stopF t = true
    · simp [run_go, hs]
    · simp only [run_go, hs, Bool.false_eq_true, if_false, List.length_cons]
      have h2 := ih (i + 1)
        (if i + 1 < total then
          (if stopF (retry_loop cfg br stopF i url (t + 1)).t = true then
            ([], (retry_loop cfg br stopF i url (t + 1)).t + 1)
          else ([LogEvent.betweenWait cfg.delay],
            (retry_loop cfg br stopF i url (t + 1)).t + 1))
        else ([], (retry_loop cfg br stopF i url (t + 1)).t)).2
      by_cases hr : (retry_loop cfg br stopF i url (t + 1)).success = true <;>
        simp [hr] <;> omega

theorem run_go_sum_eq (cfg : Config) (br : Nat → Nat → Outcome)
    (stopF : Nat → Bool) (total : Nat) (hns : ∀ t, stopF t = false) :
    ∀ (l : List String) (i t : Nat),
      (run_go cfg br stopF total l i t).successful +
        (run_go cfg br stopF total l i t).failed = l.length := by
  intro l
  induction l with
  | nil => intro i t; simp [run_go]
  | cons url rest ih =>
    intro i t
    simp only [run_go, hns t, Bool.false_eq_true, if_false, List.length_cons]
    have h2 := ih (i + 1)
      (if i + 1 < total then
        (if stopF (retry_loop cfg br stopF i url (t + 1)).t = true then
          ([], (retry_loop cfg br stopF i url (t + 1)).t + 1)
        else ([LogEvent.betweenWait cfg.delay],
          (retry_loop cfg br stopF i url (t + 1)).t + 1))
      else ([], (retry_loop cfg br stopF i url (t + 1)).t)).2
    by_cases hr : (retry_loop cfg br stopF i url (t + 1)).success = true <;>
      simp [hr] <;> omega

theorem run_go_ticks_length_le (cfg : Config) (br : Nat → Nat → Outcome)
    (stopF : Nat → Bool) (total : Nat) :
    ∀ (l : List String) (i t : Nat),
      (run_go cfg br stopF total l i t).ticks.length ≤
        l.length * (cfg.max_retries + 1) := by
  intro l
  induction l with
  | nil => intro i t; simp [run_go]
  | cons url rest ih =>
    intro i t
    by_cases hs : stopF t = true
    · simp [run_go, hs]
    · simp only [run_go, hs, Bool.false_eq_true, if_false, List.length_cons]
      have h1 : (retry_loop cfg br stopF i url (t + 1)).ticks.length ≤
          cfg.max_retries + 1 :=
        retry_go_ticks_length_le cfg br stopF i url
          (cfg.max_retries + 1) 1 (t + 1)
      have h2 := ih (i + 1)
        (if i + 1 < total then
          (if stopF (retry_loop cfg br stopF i url (t + 1)).t = true then
            ([], (retry_loop cfg br stopF i url (t + 1)).t + 1)
          else ([LogEvent.betweenWait cfg.delay],
            (retry_loop cfg br stopF i url (t + 1)).t + 1))
        else ([], (retry_loop cfg br stopF i url (t + 1)).t)).2
      simp only [List.length_append, Nat.succ_mul]
      omega

theorem run_go_ticks_stop_false (cfg : Config) (br : Nat → Nat → Outcome)
    (stopF : Nat → Bool) (total : Nat) :
    ∀ (l : List String) (i t x : Nat),
      x ∈ (run_go cfg br stopF total l i t).ticks → stopF x = false := by
  intro l
  induction l with
  | nil => intro i t x hx; simp [run_go] at hx
  | cons url rest ih =>
    intro i t x hx
    by_cases hs : stopF t = true
    · simp [run_go, hs] at hx
    · simp only [run_go, hs, Bool.false_eq_true, if_false,
        List.mem_append] at hx
      rcases hx with hx | hx
      · exact retry_go_ticks_stop_false cfg br stopF i url
          (cfg.max_retries + 1) 1 (t + 1) x hx
      · exact ih (i + 1) _ x hx

theorem run_go_fus_sublist (cfg : Config) (br : Nat → Nat → Outcome)
    (stopF : Nat → Bool) (total : Nat) :
    ∀ (l : List String) (i t : Nat),
      List.Sublist (run_go cfg br stopF total l i t).failed_urls l := by
  intro l
  induction l with
  | nil => intro i t; simp [run_go]
  | cons url rest ih =>
    intro i t
    by_cases hs : stopF t = true
    · simp [run_go, hs]
    · simp only [run_go, hs, Bool.false_eq_true, if_false]
      by_cases hr : (retry_loop cfg br stopF i url (t + 1)).success = true
      · simpa [hr] using List.Sublist.cons url (ih (i + 1) _)
      · simpa [hr] using List.Sublist.cons₂ url (ih (i + 1) _)

theorem run_go_all_fail (cfg : Config) (br : Nat → Nat → Outcome)
    (stopF : Nat → Bool) (total : Nat) (hns : ∀ t, stopF t = false)
    (hf : ∀ i a, attemptSucceeds (br i a) = false) :
    ∀ (l : List String) (i t : Nat),
      (run_go cfg br stopF total l i t).successful = 0 ∧
      (run_go cfg br stopF total l i t).failed = l.length ∧
      (run_go cfg br stopF total l i t).failed_urls = l := by
  intro l
  induction l with
  | nil => intro i t; simp [run_go]
  | cons url rest ih =>
    intro i t
    have hr : (retry_loop cfg br stopF i url (t + 1)).success = false :=
      retry_go_success_false cfg br stopF i url (hf i)
        (cfg.max_retries + 1) 1 (t + 1)
    simp only [run_go, hns t, Bool.false_eq_true, if_false, List.length_cons]
    rcases ih (i + 1)
      (if i + 1 < total then
        (if stopF (retry_loop cfg br stopF i url (t + 1)).t = true then
          ([], (retry_loop cfg br stopF i url (t + 1)).t + 1)
        else ([LogEvent.betweenWait cfg.delay],
          (retry_loop cfg br stopF i url (t + 1)).t + 1))
      else ([], (retry_loop cfg br stopF i url (t + 1)).t)).2
      with ⟨ihs, ihf, ihu⟩
    simp [hr, ihs, ihf, ihu]
    omega

theorem foldl_stepFlag_keeps_set (es : List EngineEvent) :
    ∀ st : Bool × Bool, (∀ e ∈ es, e ≠ EngineEvent.runStart) →
      st.2 = true → (es.foldl stepFlag st).2 = true := by
  induction es with
  | nil => intro st _ h; simpa using h
  | cons e es ih =>
    intro st hes h
    have he := hes e (List.mem_cons_self e es)
    have hstep : (stepFlag st e).2 = true := by
      cases e with
      | runStart => exact absurd rfl he
      | stopReq => cases st; rfl
      | runEnd => cases st; simpa using h
    exact ih (stepFlag st e) (fun e' he' => hes e' (List.mem_cons_of_mem _ he'))
      hstep

/-- Claim C1: for a job of N addresses with `max_retries = r`, `run`
performs at most `N * (r + 1)` calls to `download_file`, each processed
item gets exactly one outcome so `successful + failed` never exceeds `N`,
and when no cancellation occurs (the stop flag is never set)
`successful + failed` equals `N` exactly. -/
theorem claim_c1 (cfg : Config) (br : Nat → Nat → Outcome)
    (stopF : Nat → Bool) (pathExists : Bool) (urls : List String) :
    (run cfg br stopF pathExists (.ok ()) urls).attemptTicks.length ≤
      urls.length * (cfg.max_retries + 1) ∧
    (run cfg br stopF pathExists (.ok ()) urls).result.successful +
      (run cfg br stopF pathExists (.ok ()) urls).result.failed ≤
      urls.length ∧
    ((∀ t, stopF t = false) →
      (run cfg br stopF pathExists (.ok ()) urls).result.successful +
        (run cfg br stopF pathExists (.ok ()) urls).result.failed =
        urls.length) := by
  refine ⟨?_, ?_, ?_⟩
  · simpa [run] using
      run_go_ticks_length_le cfg br stopF urls.length urls 0 0
  · simpa [run] using run_go_sum_le cfg br stopF urls.length urls 0 0
  · intro hns
    simpa [run] using run_go_sum_eq cfg br stopF urls.length hns urls 0 0

/-- Witness for C1 at a concrete two-address job with `max_retries = 1`,
a browser layer that never succeeds, and a stop flag that is never set. -/
theorem claim_c1_witness :
    (run ⟨"d", "s", 1, 0, false, 1, 1, "Chromium", ""⟩
        (fun _ _ => Outcome.noButton) (fun _ => false) false (.ok ())
        ["a", "b"]).result.successful +
      (run ⟨"d", "s", 1, 0, false, 1, 1, "Chromium", ""⟩
        (fun _ _ => Outcome.noButton) (fun _ => false) false (.ok ())
        ["a", "b"]).result.failed = (["a", "b"] : List String).length :=
  (claim_c1 ⟨"d", "s", 1, 0, false, 1, 1, "Chromium", ""⟩
    (fun _ _ => Outcome.noButton) (fun _ => false) false ["a", "b"]).2.2
    (fun _ => rfl)

/-- Claim C2: the stop flag is read before each attempt, between attempts
(the head of each retry iteration) and between items, so with a monotone
flag that is set by read tick `T`, every `download_file` call starts at a
read tick where the flag was still unset, hence strictly before `T`; and
when the flag is already set at the first read, zero attempts occur and
the result is empty (no item had completed before the flag was observed). -/
theorem claim_c2 (cfg : Config) (br : Nat → Nat → Outcome)
    (stopF : Nat → Bool) (pathExists : Bool) (launch : Except String Unit)
    (urls : List String) (T : Nat)
    (hmono : MonoFlag stopF) (hT : stopF T = true) :
    (∀ x ∈ (run cfg br stopF pathExists launch urls).attemptTicks,
      stopF x = false ∧ x < T) ∧
    (stopF 0 = true →
      (run cfg br stopF pathExists launch urls).attemptTicks = [] ∧
      (run cfg br stopF pathExists launch urls).result = ⟨0, 0, []⟩) := by
  have key : ∀ x, stopF x = false → x < T := by
    intro x hx
    by_contra hlt
    push_neg at hlt
    have := mono_ge hmono hT x hlt
    rw [this] at hx
    exact Bool.true_eq_false.mp hx
  cases launch with
  | error m =>
    refine ⟨?_, fun _ => ⟨rfl, rfl⟩⟩
    intro x hx
    simp [run] at hx
  | ok u =>
    constructor
    · intro x hx
      have hf : stopF x = false :=
        run_go_ticks_stop_false cfg br stopF urls.length urls 0 0 x
          (by simpa [run] using hx)
      exact ⟨hf, key x hf⟩
    · intro h0
      have h := run_go_stopped cfg br stopF urls.length urls 0 0 h0
      constructor
      · simpa [run] using h.2.2.2
      · simp only [run]
        rw [RunResult.mk.injEq]
        exact ⟨h.1, h.2.1, h.2.2.1⟩

/-- Witness for C2: stop requested before the run's first flag read. -/
theorem claim_c2_witness :
    (run ⟨"d", "s", 1, 0, false, 1, 1, "Chromium", ""⟩
      (fun _ _ => Outcome.noButton) (fun _ => true) false (.ok ())
      ["a", "b"]).attemptTicks = [] ∧
    (run ⟨"d", "s", 1, 0, false, 1, 1, "Chromium", ""⟩
      (fun _ _ => Outcome.noButton) (fun _ => true) false (.ok ())
      ["a", "b"]).result = ⟨0, 0, []⟩ :=
  (claim_c2 ⟨"d", "s", 1, 0, false, 1, 1, "Chromium", ""⟩
    (fun _ _ => Outcome.noButton) (fun _ => true) false (.ok ())
    ["a", "b"] 0 (fun _ h => h) rfl).2 rfl

/-- Claim C3: when every attempt of every item fails and no cancellation
occurs, the failed-address list is the input list in its original order
(here: the result is exactly `⟨0, N, urls⟩`); and for every run, also one
cancelled early, the produced failed-address list is an order-preserving
sublist of the input and the log trace ends with the summary built from
the run's totals and that list. -/
theorem claim_c3 (cfg : Config) (br : Nat → Nat → Outcome)
    (stopF : Nat → Bool) (pathExists : Bool) (urls : List String)
    (hns : ∀ t, stopF t = false)
    (hf : ∀ i a, attemptSucceeds (br i a) = false) :
    (run cfg br stopF pathExists (.ok ()) urls).result =
      ⟨0, urls.length, urls⟩ ∧
    (∀ g : Nat → Bool,
      List.Sublist
        ((run cfg br g pathExists (.ok ()) urls).result.failed_urls) urls ∧
      ∃ pre, (run cfg br g pathExists (.ok ()) urls).logs =
        pre ++ summaryLogs urls.length
          (run cfg br g pathExists (.ok ()) urls).result.successful
          (run cfg br g pathExists (.ok ()) urls).result.failed
          (run cfg br g pathExists (.ok ()) urls).result.failed_urls) := by
  constructor
  · have h := run_go_all_fail cfg br stopF urls.length hns hf urls 0 0
    simp only [run]
    rw [RunResult.mk.injEq]
    exact ⟨h.1, h.2.1, h.2.2⟩
  · intro g
    constructor
    · simpa [run] using run_go_fus_sublist cfg br g urls.length urls 0 0
    · refine ⟨(headerLogs cfg urls.length ++ [LogEvent.launching] ++
        (if cfg.custom_browser_path != "" && pathExists then
          [LogEvent.usingCustomBrowser cfg.custom_browser_path] else [])) ++
        (run_go cfg br g urls.length urls 0 0).logs ++
        [LogEvent.closingBrowser], ?_⟩
      simp [run]

/-- Witness for C3: two addresses, browser layer that never succeeds. -/
theorem claim_c3_witness :
    (run ⟨"d", "s", 1, 0, false, 1, 1, "Chromium", ""⟩
        (fun _ _ => Outcome.noButton) (fun _ => false) false (.ok ())
        ["a", "b"]).result = ⟨0, (["a", "b"] : List String).length,
        ["a", "b"]⟩ :=
  (claim_c3 ⟨"d", "s", 1, 0, false, 1, 1, "Chromium", ""⟩
    (fun _ _ => Outcome.noButton) (fun _ => false) false ["a", "b"]
    (fun _ => rfl) (fun _ _ => rfl)).1

/-- Claim C7: when launching the browser session raises, the whole run
ends: an error-level browser-error event is logged, the result is empty
(zero successes, zero failures, empty failed-address list), no engine is
launched, and no `download_file` call is performed. -/
theorem claim_c7 (cfg : Config) (br : Nat → Nat → Outcome)
    (stopF : Nat → Bool) (pathExists : Bool) (m : String)
    (urls : List String) :
    (run cfg br stopF pathExists (.error m) urls).result = ⟨0, 0, []⟩ ∧
    (run cfg br stopF pathExists (.error m) urls).attemptTicks = [] ∧
    (run cfg br stopF pathExists (.error m) urls).engine = none ∧
    LogEvent.browserError m ∈
      (run cfg br stopF pathExists (.error m) urls).logs ∧
    (LogEvent.browserError m).level = Level.error ∧
    (run cfg br stopF pathExists (.error m) urls).logs =
      headerLogs cfg urls.length ++ [LogEvent.launching] ++
      (if cfg.custom_browser_path != "" && pathExists then
        [LogEvent.usingCustomBrowser cfg.custom_browser_path] else []) ++
      [LogEvent.browserError m] ++ summaryLogs urls.length 0 0 [] := by
  refine ⟨rfl, rfl, rfl, ?_, rfl, rfl⟩
  simp [run]

/-- Claim C9: while a run is in progress the shared stop flag is
monotonic: `stop()` writes `True`, and no engine step other than the
initialisation at run start writes it at all, so along any sequence of
events that contains no run start, a set flag stays set. -/
theorem claim_c9 (st : Bool × Bool) (es : List EngineEvent)
    (hes : ∀ e ∈ es, e ≠ EngineEvent.runStart) :
    (∀ s : Bool × Bool, (stepFlag s EngineEvent.stopReq).2 = true) ∧
    (st.2 = true → (es.foldl stepFlag st).2 = true) := by
  refine ⟨fun s => ?_, foldl_stepFlag_keeps_set es st hes⟩
  cases s
  rfl

/-- Witness for C9: flag set, then a stop request and the run end. -/
theorem claim_c9_witness :
    ([EngineEvent.stopReq, EngineEvent.runEnd].foldl stepFlag
      (true, true)).2 = true :=
  (claim_c9 (true, true) [EngineEvent.stopReq, EngineEvent.runEnd]
    (by decide)).2 rfl



theorem retry_go_noButton_counts (cfg : Config) (i : Nat) (url : String) :
    ∀ rem attempt t,
      ((retry_go cfg (fun _ _ => Outcome.noButton) (fun _ => false) i url
        rem attempt t).logs.countP isNotFound = rem ∧
      (retry_go cfg (fun _ _ => Outcome.noButton) (fun _ => false) i url
        rem attempt t).logs.countP isClickSave = 0) := by
  intro rem
  induction rem with
  | zero => intro attempt t; simp [retry_go]
  | succ n ih =>
    intro attempt t
    have hd : (download_file cfg Outcome.noButton url attempt).1 = false :=
      rfl
    by_cases ha : attempt <= cfg.max_retries <;>
      simp [retry_go, hd, ha, download_file, download_file_body,
        List.countP_cons, isNotFound, isClickSave,
        (ih (attempt + 1) (t + 1)).1, (ih (attempt + 1) (t + 1)).2]

theorem claim_c5 (cfg : Config) (url : String) (pe : Bool) :
    (∀ a u, download_file cfg Outcome.noButton u a =
      (false, [LogEvent.opening a cfg.max_retries u, LogEvent.pageLoaded,
        LogEvent.buttonNotFound cfg.selector])) ∧
    (LogEvent.buttonNotFound cfg.selector).level = Level.warning ∧
    (run cfg (fun _ _ => Outcome.noButton) (fun _ => false) pe (.ok ())
      [url]).result = ⟨0, 1, [url]⟩ ∧
    (run cfg (fun _ _ => Outcome.noButton) (fun _ => false) pe (.ok ())
      [url]).logs.countP isNotFound = cfg.max_retries + 1 ∧
    (run cfg (fun _ _ => Outcome.noButton) (fun _ => false) pe (.ok ())
      [url]).logs.countP isClickSave = 0 := by
  refine ⟨fun a u => rfl, rfl, ?_, ?_, ?_⟩
  · have h := run_go_all_fail cfg (fun _ _ => Outcome.noButton)
      (fun _ => false) 1 (fun _ => rfl) (fun _ _ => rfl) [url] 0 0
    simp only [run]
    rw [RunResult.mk.injEq]
    simpa using ⟨h.1, h.2.1, h.2.2⟩
  · have h := retry_go_noButton_counts cfg 0 url (cfg.max_retries + 1) 1 1
    have hs : (retry_go cfg (fun _ _ => Outcome.noButton) (fun _ => false)
        0 url (cfg.max_retries + 1) 1 1).success = false :=
      retry_go_success_false cfg (fun _ _ => Outcome.noButton)
        (fun _ => false) 0 url (fun _ => rfl) (cfg.max_retries + 1) 1 1
    by_cases hcp : cfg.custom_browser_path = "" <;>
      by_cases hpe : pe = true <;>
      simp [run, run_go, retry_loop, headerLogs, summaryLogs,
        List.countP_append, List.countP_cons, isNotFound, h.1, hs, hcp, hpe]
  · have h := retry_go_noButton_counts cfg 0 url (cfg.max_retries + 1) 1 1
    have hs : (retry_go cfg (fun _ _ => Outcome.noButton) (fun _ => false)
        0 url (cfg.max_retries + 1) 1 1).success = false :=
      retry_go_success_false cfg (fun _ _ => Outcome.noButton)
        (fun _ => false) 0 url (fun _ => rfl) (cfg.max_retries + 1) 1 1
    by_cases hcp : cfg.custom_browser_path = "" <;>
      by_cases hpe : pe = true <;>
      simp [run, run_go, retry_loop, headerLogs, summaryLogs,
        List.countP_append, List.countP_cons, isClickSave, h.2, hs, hcp, hpe]

/-- Claim C6: an exception raised by the browser layer at any of the four
interaction points (navigation, element lookup, click/await-save, file
save) never propagates out of `download_file`: the call still returns a
plain boolean-and-logs pair with result `false`, and the last event
appended is the logged error, which is error-classified. -/
theorem claim_c6 (cfg : Config) (url : String) (attempt : Nat) (e : PwErr)
    (f : String) :
    ((download_file cfg (.navRaise e) url attempt).1 = false ∧
      (download_file cfg (.navRaise e) url attempt).2.getLast? =
        some (errEvent e)) ∧
    ((download_file cfg (.lookupRaise e) url attempt).1 = false ∧
      (download_file cfg (.lookupRaise e) url attempt).2.getLast? =
        some (errEvent e)) ∧
    ((download_file cfg (.clickRaise e) url attempt).1 = false ∧
      (download_file cfg (.clickRaise e) url attempt).2.getLast? =
        some (errEvent e)) ∧
    ((download_file cfg (.saveRaise e f) url attempt).1 = false ∧
      (download_file cfg (.saveRaise e f) url attempt).2.getLast? =
        some (errEvent e)) ∧
    (errEvent e).level = Level.error := by
  cases e <;> exact ⟨⟨rfl, rfl⟩, ⟨rfl, rfl⟩, ⟨rfl, rfl⟩, ⟨rfl, rfl⟩, rfl⟩

/-- Claim C8 does not hold as stated: the code tests the WHOLE custom
path for the substring "zen" (line 153: `"zen" in
custom_browser_path.lower()`), not the path's filename. With browser type
"Chromium" and custom path `C:\zen\chrome.exe`, whose filename
`chrome.exe` does not contain "zen", the Firefox engine is still
selected, so selection is not independent of the directory part. -/
theorem claim_c8_counterexample :
    ¬ ((selectBrowser "Chromium" "C:\\zen\\chrome.exe" = "firefox") ↔
      (strContains (lowerStr (filenameOf "C:\\zen\\chrome.exe")) "zen"
        = true)) := by
  decide


theorem claim_c8_amended (bt path : String) (hne : path ≠ "") :
    (selectBrowser bt path = "firefox" ↔
      (bt = "Firefox" ∨ strContains (lowerStr path) "zen" = true)) ∧
    (selectBrowser bt path ≠ "firefox" →
      selectBrowser bt path =
        (if bt = "WebKit" then "webkit" else "chromium")) ∧
    (∀ (cfg : Config) (br : Nat → Nat → Outcome) (stopF : Nat → Bool)
      (launch : Except String Unit) (urls : List String),
      (run cfg br stopF true launch urls).engine =
        (run cfg br stopF false launch urls).engine) := by
  refine ⟨?_, ?_, ?_⟩
  · by_cases h1 : bt = "Firefox"
    · simp [selectBrowser, h1]
    · by_cases h2 : strContains (lowerStr path) "zen" = true
      · have hc : (bt == "Firefox" ||
            (path != "" && strContains (lowerStr path) "zen")) = true := by
          simp [h2, hne]
        simp only [selectBrowser, hc, if_true]
        simp [h2]
      · have hc : (bt == "Firefox" ||
            (path != "" && strContains (lowerStr path) "zen")) = false := by
          simp [h1, h2]
        simp only [selectBrowser, hc, Bool.false_eq_true, if_false]
        constructor
        · intro h
          by_cases h3 : bt = "WebKit" <;> simp [h3] at h
        · intro h
          rcases h with h | h
          · exact absurd h h1
          · exact absurd h h2
  · intro hne2
    by_cases h1 : bt = "Firefox"
    · exact absurd (by simp [selectBrowser, h1]) hne2
    · by_cases h2 : strContains (lowerStr path) "zen" = true
      · exact absurd (by simp [selectBrowser, h1, h2, hne]) hne2
      · by_cases h3 : bt = "WebKit" <;>
          simp [selectBrowser, h1, h2, h3, hne]
  · intro cfg br stopF launch urls
    cases launch <;> rfl

/-- Witness for the amended C8: a Zen-browser path under a non-Firefox
browser type still selects the Firefox engine, because the full
lowercased path contains "zen". -/
theorem claim_c8_amended_witness :
    selectBrowser "Custom" "/opt/zen/zen.exe" = "firefox" ↔
      ("Custom" = "Firefox" ∨
        strContains (lowerStr "/opt/zen/zen.exe") "zen" = true) :=
  (claim_c8_amended "Custom" "/opt/zen/zen.exe" (by decide)).1


/-- Claim C4: a one-address job with `max_retries = 2` whose browser
layer fails attempts 1 and 2 (in any way) and succeeds on attempt 3
yields 1 success, 0 failures, and exactly 2 retry-wait events in the log
(one after each failed non-final attempt, none after the success). -/
theorem claim_c4 (df sel bt cp fn url : String) (dl pt dt sz : Nat)
    (hl pe : Bool) (o1 o2 : Outcome)
    (h1 : attemptSucceeds o1 = false) (h2 : attemptSucceeds o2 = false) :
    (run ⟨df, sel, 2, dl, hl, pt, dt, bt, cp⟩
      (fun _ a => if a = 1 then o1 else if a = 2 then o2
        else Outcome.saved fn sz)
      (fun _ => false) pe (.ok ()) [url]).result = ⟨1, 0, []⟩ ∧
    (run ⟨df, sel, 2, dl, hl, pt, dt, bt, cp⟩
      (fun _ a => if a = 1 then o1 else if a = 2 then o2
        else Outcome.saved fn sz)
      (fun _ => false) pe (.ok ()) [url]).logs.countP isRetryWait = 2 := by
  have hsv : attemptSucceeds (Outcome.saved fn sz) = true := rfl
  constructor
  · simp only [run, run_go, retry_loop, retry_go]
    simp [download_file_fst, h1, h2, hsv]
  · simp only [run, run_go, retry_loop, retry_go]
    by_cases hcp : (cp != "" && pe) = true <;>
      simp [download_file_fst, h1, h2, hsv, hcp, headerLogs, summaryLogs,
        List.countP_append, List.countP_cons, isRetryWait,
        countP_retryWait_download]

/-- Witness for C4: selector missing on attempt 1, navigation timeout on
attempt 2, success on attempt 3. -/
theorem claim_c4_witness :
    (run ⟨"d", "s", 2, 1, false, 1, 1, "Chromium", ""⟩
      (fun _ a => if a = 1 then Outcome.noButton
        else if a = 2 then Outcome.navRaise (.timeout "t")
        else Outcome.saved "f" 1)
      (fun _ => false) false (.ok ()) ["u"]).result = ⟨1, 0, []⟩ ∧
    (run ⟨"d", "s", 2, 1, false, 1, 1, "Chromium", ""⟩
      (fun _ a => if a = 1 then Outcome.noButton
        else if a = 2 then Outcome.navRaise (.timeout "t")
        else Outcome.saved "f" 1)
      (fun _ => false) false (.ok ()) ["u"]).logs.countP isRetryWait = 2 :=
  claim_c4 "d" "s" "Chromium" "" "f" "u" 1 1 1 1 false false
    Outcome.noButton (Outcome.navRaise (.timeout "t")) rfl rfl


theorem retry_go_stop_exit (cfg : Config) (br : Nat → Nat → Outcome)
    (stopF : Nat → Bool) (i : Nat) (url : String) :
    ∀ k rem attempt t,
      k < rem →
      (∀ j, j < k → stopF (t + j) = false) →
      (∀ j, j < k → attemptSucceeds (br i (attempt + j)) = false) →
      stopF (t + k) = true →
      (retry_go cfg br stopF i url rem attempt t).success = false ∧
      (retry_go cfg br stopF i url rem attempt t).t = t + k + 1 ∧
      (retry_go cfg br stopF i url rem attempt t).ticks =
        List.range' t k := by
  intro k
  induction k with
  | zero =>
    intro rem attempt t hrem _ _ hset
    obtain ⟨r, rfl⟩ := Nat.exists_eq_succ_of_ne_zero
      (Nat.pos_iff_ne_zero.mp hrem)
    rw [show t + 0 = t from rfl] at hset
    simp [retry_go, hset]
  | succ k ih =>
    intro rem attempt t hrem hfalse hfail hset
    obtain ⟨r, rfl⟩ := Nat.exists_eq_succ_of_ne_zero
      (Nat.pos_iff_ne_zero.mp (Nat.lt_of_le_of_lt (Nat.zero_le _) hrem))
    have h0 : stopF t = false := by
      have := hfalse 0 (Nat.succ_pos k)
      rwa [show t + 0 = t from rfl] at this
    have hd : (download_file cfg (br i attempt) url attempt).1 = false := by
      rw [download_file_fst]
      have := hfail 0 (Nat.succ_pos k)
      rwa [show attempt + 0 = attempt from rfl] at this
    have ihh := ih r (attempt + 1) (t + 1) (by omega)
      (fun j hj => by
        have := hfalse (j + 1) (by omega)
        rwa [show t + (j + 1) = t + 1 + j from by omega] at this)
      (fun j hj => by
        have := hfail (j + 1) (by omega)
        rwa [show attempt + (j + 1) = attempt + 1 + j from by omega]
          at this)
      (by rwa [show t + (k + 1) = t + 1 + k from by omega] at hset)
    have hrange : List.range' t (k + 1) = t :: List.range' (t + 1) k :=
      List.range'_succ t k 1
    by_cases ha : attempt ≤ cfg.max_retries <;>
      simp only [retry_go, h0, Bool.false_eq_true, if_false, hd, ha,
        if_true, ite_false, ite_true, hrange] <;>
      exact ⟨ihh.1, by rw [ihh.2.1]; omega, by rw [ihh.2.2]⟩


/-- Claim C10: an item whose retry loop is exited because the stop flag
was observed at a per-attempt checkpoint - before its first attempt
(k = 0) or between attempts, after k failed attempts - is still recorded
as a failure: the failure count is 1, its address is appended to the
failed list, and no further attempt is made for it (the run's attempt
ticks are exactly the k earlier failed attempts of this item). -/
theorem claim_c10 (cfg : Config) (br : Nat → Nat → Outcome)
    (stopF : Nat → Bool) (total i t k : Nat) (url : String)
    (rest : List String) (hmono : MonoFlag stopF)
    (hk : k ≤ cfg.max_retries) (h0 : stopF t = false)
    (hfalse : ∀ j, j < k → stopF (t + 1 + j) = false)
    (hfail : ∀ j, j < k → attemptSucceeds (br i (1 + j)) = false)
    (hset : stopF (t + 1 + k) = true) :
    (run_go cfg br stopF total (url :: rest) i t).successful = 0 ∧
    (run_go cfg br stopF total (url :: rest) i t).failed = 1 ∧
    (run_go cfg br stopF total (url :: rest) i t).failed_urls = [url] ∧
    (run_go cfg br stopF total (url :: rest) i t).ticks =
      List.range' (t + 1) k := by
  have hr := retry_go_stop_exit cfg br stopF i url k (cfg.max_retries + 1)
    1 (t + 1) (by omega) hfalse hfail hset
  have hrs : (retry_loop cfg br stopF i url (t + 1)).success = false :=
    hr.1
  have hrt : (retry_loop cfg br stopF i url (t + 1)).t = t + 1 + k + 1 :=
    hr.2.1
  have hrtk : (retry_loop cfg br stopF i url (t + 1)).ticks =
      List.range' (t + 1) k := hr.2.2
  have hs2 : stopF (t + 1 + k + 1) = true :=
    mono_ge hmono hset (t + 1 + k + 1) (by omega)
  by_cases hc : i + 1 < total
  · have hs3 : stopF (t + 1 + k + 1 + 1) = true :=
      mono_ge hmono hset (t + 1 + k + 1 + 1) (by omega)
    have hrest := run_go_stopped cfg br stopF total rest (i + 1)
      (t + 1 + k + 1 + 1) hs3
    simp [run_go, h0, hc, hrs, hrt, hrtk, hs2, hrest.1, hrest.2.1,
      hrest.2.2.1, hrest.2.2.2]
  · have hrest := run_go_stopped cfg br stopF total rest (i + 1)
      (t + 1 + k + 1) hs2
    simp [run_go, h0, hc, hrs, hrt, hrtk, hrest.1, hrest.2.1,
      hrest.2.2.1, hrest.2.2.2]

/-- Witness for C10 in the between-attempts case: the first item fails
its first attempt, then the flag is observed set at the checkpoint of
attempt 2 (read tick 2); the item is tallied as the single failure with
exactly its one earlier attempt tick. -/
theorem claim_c10_witness :
    (run_go ⟨"d", "s", 1, 0, false, 1, 1, "Chromium", ""⟩
      (fun _ _ => Outcome.noButton) (fun n => decide (2 ≤ n)) 2
      ["a", "b"] 0 0).successful = 0 ∧
    (run_go ⟨"d", "s", 1, 0, false, 1, 1, "Chromium", ""⟩
      (fun _ _ => Outcome.noButton) (fun n => decide (2 ≤ n)) 2
      ["a", "b"] 0 0).failed = 1 ∧
    (run_go ⟨"d", "s", 1, 0, false, 1, 1, "Chromium", ""⟩
      (fun _ _ => Outcome.noButton) (fun n => decide (2 ≤ n)) 2
      ["a", "b"] 0 0).failed_urls = ["a"] ∧
    (run_go ⟨"d", "s", 1, 0, false, 1, 1, "Chromium", ""⟩
      (fun _ _ => Outcome.noButton) (fun n => decide (2 ≤ n)) 2
      ["a", "b"] 0 0).ticks = List.range' (0 + 1) 1 :=
  claim_c10 ⟨"d", "s", 1, 0, false, 1, 1, "Chromium", ""⟩
    (fun _ _ => Outcome.noButton) (fun n => decide (2 ≤ n)) 2 0 0 1 "a"
    ["b"]
    (by intro u h; simp only [decide_eq_true_eq] at h ⊢; omega)
    (by decide) (by decide)
    (fun j hj => by
      have hj0 : j = 0 := by omega
      subst hj0
      rfl)
    (fun j hj => rfl)
    (by decide)

end Downloader
